import Mathlib

/-!
Verification of the TraceForge orchestration core.

This file gives a shallow embedding, in Lean 4, of the pure logic of the
TraceForge pipeline, translated from the TypeScript source:

* `packages/evaluator/src/basic-evaluator.ts` — the deterministic
  evaluator (`calculateOverlap`, `detectPolicyRisk`, `basicEvaluate`);
* the error taxonomy module (`classifyError`, `determineFinalStatus`);
* the span-name taxonomy module (`SPAN_NAMES`, `getSpanName`);
* `packages/telemetry/src/start-stage-span.ts` — the stage-span
  primitive, modelled as an event-trace producing function;
* `packages/core/src/orchestrator.ts` — the `remediate` policy and the
  current revision of `doOrchestrate`, modelled with explicit
  `Except`-valued collaborators in place of thrown exceptions.

JavaScript numbers are modelled as rationals (`ℚ`); strings as Lean
`String` / `List Char`.  JavaScript exceptions are modelled with
`Except` / `Option`.  Regular-expression tests are modelled as
executable scanners over `List Char` with "a match exists somewhere"
semantics, mirroring `RegExp.prototype.test`.
-/

namespace Traceforge

/-! ## JavaScript-style character and string helpers -/

/-- The whitespace characters recognised here (model of the regex class
`\s` restricted to the characters `Char.isWhitespace` knows: space, tab,
newline, carriage return). -/
def isJsSpace (c : Char) : Bool := c.isWhitespace

/-- Model of the regex class `\w`, i.e. `[A-Za-z0-9_]`. -/
def isWordChar (c : Char) : Bool := c.isAlphanum || c = '_'

/-- `prevWord p` is true when the character just before the current scan
position exists and is a word character (`p = none` at string start). -/
def prevWord : Option Char → Bool
  | none => false
  | some c => isWordChar c

/-- Lower-case a character list (model of `String.prototype.toLowerCase`
on ASCII data). -/
def lower (l : List Char) : List Char := l.map Char.toLower

/-- Substring containment: `listIncludes hay needle` models
`hay.includes(needle)` on JavaScript strings. -/
def listIncludes (needle : List Char) : List Char → Bool
  | [] => needle.isEmpty
  | c :: t => needle.isPrefixOf (c :: t) || listIncludes needle t

/-- Split into maximal runs of non-whitespace characters: the tokens
produced by `text.split(/\s+/)` once empty fragments are discarded (the
caller filters on token length `> 2`, so the possible leading empty
fragment of the JavaScript split never survives). -/
def splitWsAux : List Char → List Char → List (List Char)
  | [], acc => if acc.isEmpty then [] else [acc.reverse]
  | c :: rest, acc =>
    if isJsSpace c then
      if acc.isEmpty then splitWsAux rest [] else acc.reverse :: splitWsAux rest []
    else splitWsAux rest (c :: acc)

def splitWs (l : List Char) : List (List Char) := splitWsAux l []

/-- A sentence-ending character, the class `[.!?]`. -/
def isEnder (c : Char) : Bool := c = '.' || c = '!' || c = '?'

/-- Split on the delimiter regex `[.!?]\s+` (one sentence ender followed
by a maximal run of whitespace), the model of
`context.split(/[.!?]\s+/)`.  Like the JavaScript split, empty fragments
are kept. -/
def splitSentAux : List Char → List Char → List (List Char)
  | [], acc => [acc.reverse]
  | c :: rest, acc =>
    if isEnder c && !(rest.dropWhile isJsSpace == rest) then
      acc.reverse :: splitSentAux (rest.dropWhile isJsSpace) []
    else
      splitSentAux rest (c :: acc)
termination_by l _ => l.length
decreasing_by
  · simpa using Nat.lt_succ_of_le (List.Sublist.length_le (List.dropWhile_sublist _))
  · simp

def splitSentences (l : List Char) : List (List Char) := splitSentAux l []

/-! ## The deterministic evaluator (`basic-evaluator.ts`) -/

/-- The de-duplicated token set of a (pre-lowercased) text: tokens are
whitespace-separated runs of length `> 2`.  Models the `Set` built in
`calculateOverlap` from `text.toLowerCase().split(/\s+/).filter(w =>
w.length > 2)`. -/
def tokenSet (l : List Char) : Finset (List Char) :=
  ((splitWs l).filter (fun w => w.length > 2)).toFinset

/-- Jaccard similarity of the token sets of two texts; translation of
`calculateOverlap` from `basic-evaluator.ts`.  The first guard models
the JavaScript falsiness test `if (!text1 || !text2) return 0` (the
arguments are strings, so falsy means empty). -/
def calculateOverlap (text1 text2 : String) : ℚ :=
  if text1 = "" || text2 = "" then 0
  else
    let words1 := tokenSet (lower text1.data)
    let words2 := tokenSet (lower text2.data)
    if words1.card = 0 || words2.card = 0 then 0
    else ((words1 ∩ words2).card : ℚ) / ((words1 ∪ words2).card : ℚ)

/-! ### The risk-pattern scanners (`detectPolicyRisk`)

Each regular expression in the `riskKeywords` array is modelled as an
executable scanner.  `existsAt p prev l` asks whether `p` matches at
some position of `l`; `prev` carries the character before the current
position, which is what the word-boundary assertion `\b` inspects. -/

def existsAt (p : Option Char → List Char → Bool) : Option Char → List Char → Bool
  | prev, [] => p prev []
  | prev, c :: t => p prev (c :: t) || existsAt p (some c) t

/-- Word boundary after the last matched character `last`: the next
character (head of `rest`, absent at end of string) must differ from
`last` in wordness. -/
def boundaryAfter (last : Char) (rest : List Char) : Bool :=
  match rest with
  | [] => isWordChar last
  | c :: _ => isWordChar last != isWordChar c

/-- Match of `\b\d{3}-\d{2}-\d{4}\b` (the SSN-like pattern) at the
current position. -/
def ssnAt (prev : Option Char) (l : List Char) : Bool :=
  match l with
  | a :: b :: c :: h1 :: d :: e :: h2 :: f :: g :: h :: i :: rest =>
    !prevWord prev && [a, b, c, d, e, f, g, h, i].all Char.isDigit &&
      h1 = '-' && h2 = '-' && boundaryAfter i rest
  | _ => false

/-- Consume exactly four digits, returning the remaining characters. -/
def digits4 : List Char → Option (List Char)
  | a :: b :: c :: d :: rest =>
    if [a, b, c, d].all Char.isDigit then some rest else none
  | _ => none

/-- The two continuations of `\s?`: skip no character, or skip one
whitespace character when present. -/
def optWs (l : List Char) : List (List Char) :=
  match l with
  | c :: t => if isJsSpace c then [c :: t, t] else [c :: t]
  | [] => [[]]

/-- Match of `\b\d{4}\s?\d{4}\s?\d{4}\s?\d{4}\b` (the credit-card-like
pattern) at the current position. -/
def ccAt (prev : Option Char) (l : List Char) : Bool :=
  !prevWord prev &&
    ((digits4 l).toList.any fun l1 => (optWs l1).any fun l1b =>
      (digits4 l1b).toList.any fun l2 => (optWs l2).any fun l2b =>
        (digits4 l2b).toList.any fun l3 => (optWs l3).any fun l3b =>
          (digits4 l3b).toList.any fun l4 =>
            match l4 with
            | [] => true
            | c :: _ => !isWordChar c)

/-- The character class `[A-Za-z0-9._%+-]` (local part of the e-mail
pattern). -/
def localChar (c : Char) : Bool :=
  c.isAlphanum || c = '.' || c = '_' || c = '%' || c = '+' || c = '-'

/-- The character class `[A-Za-z0-9.-]` (domain part). -/
def domainChar (c : Char) : Bool := c.isAlphanum || c = '.' || c = '-'

/-- The character class `[A-Z|a-z]` (top-level-domain part; note the
literal `|` inside the class, reproduced from the source). -/
def tldChar (c : Char) : Bool := c.isAlpha || c = '|'

/-- Consume one or more `localChar`s followed by `@`, returning what
follows the `@`. -/
def locRun : List Char → Option (List Char)
  | [] => none
  | c :: t =>
    if localChar c then
      match t with
      | '@' :: r => some r
      | _ => locRun t
    else none

/-- After two or more TLD characters (the last being `last`): either a
word boundary holds here, or the TLD extends by one more character. -/
def tldRest (last : Char) : List Char → Bool
  | [] => isWordChar last
  | c :: t =>
    (isWordChar last != isWordChar c) || (tldChar c && tldRest c t)

/-- `[A-Z|a-z]{2,}\b`. -/
def tldOk : List Char → Bool
  | a :: b :: t => tldChar a && tldChar b && tldRest b t
  | _ => false

/-- One or more domain characters already read; the rest must provide
`\.[A-Z|a-z]{2,}\b`, possibly extending the domain first (`.` is itself
a domain character, so both readings are tried, mirroring regex
backtracking). -/
def domAfter : List Char → Bool
  | [] => false
  | c :: t => (c = '.' && tldOk t) || (domainChar c && domAfter t)

/-- `[A-Za-z0-9.-]+\.[A-Z|a-z]{2,}\b`. -/
def domThen : List Char → Bool
  | [] => false
  | c :: t => domainChar c && domAfter t

/-- Match of the e-mail pattern
`\b[A-Za-z0-9._%+-]+@[A-Za-z0-9.-]+\.[A-Z|a-z]{2,}\b` at the current
position. -/
def emailAt (prev : Option Char) (l : List Char) : Bool :=
  match l with
  | [] => false
  | c :: _ =>
    (prevWord prev != isWordChar c) &&
      (match locRun l with
       | some rest => domThen rest
       | none => false)

/-- Case-insensitive keyword match at the current position (model of an
alternation member under the `/i` flag; the keyword is given in lower
case). -/
def ciPrefix (kw : String) (l : List Char) : Bool :=
  lower (l.take kw.data.length) == kw.data

/-- `\s*[:=]\s*\w` — the part of the credentials pattern after the
keyword.  Maximal whitespace skipping is equivalent to the regex here
because `\s`, `[:=]` and `\w` are pairwise disjoint classes. -/
def sepThen (l : List Char) : Bool :=
  match l.dropWhile isJsSpace with
  | c :: t =>
    (c = ':' || c = '=') &&
      (match t.dropWhile isJsSpace with
       | d :: _ => isWordChar d
       | [] => false)
  | [] => false

/-- Match of `/\b(password|secret|key|token)\s*[:=]\s*\w+/i` at the
current position. -/
def credAt (prev : Option Char) (l : List Char) : Bool :=
  !prevWord prev &&
    (["password", "secret", "key", "token"].any fun kw =>
      ciPrefix kw l && sepThen (l.drop kw.data.length))

/-- Match of `/\b(delete|remove|drop)\s+(all|everything|data|database)/i`
at the current position. -/
def destrAt (prev : Option Char) (l : List Char) : Bool :=
  !prevWord prev &&
    (["delete", "remove", "drop"].any fun k1 =>
      ciPrefix k1 l &&
        (let r := (l.drop k1.data.length)
         !(r.dropWhile isJsSpace == r) &&
           (["all", "everything", "data", "database"].any fun k2 =>
             ciPrefix k2 (r.dropWhile isJsSpace))))

/-- Match of `/\b(hack|exploit|bypass|circumvent)/i` at the current
position. -/
def hackAt (prev : Option Char) (l : List Char) : Bool :=
  !prevWord prev &&
    (["hack", "exploit", "bypass", "circumvent"].any fun kw => ciPrefix kw l)

/-- Translation of `detectPolicyRisk`: count how many of the six risk
patterns fire somewhere in the answer, and normalise by
`Math.min(riskCount / 3, 1)`. -/
def detectPolicyRisk (answer : String) : ℚ :=
  let d := answer.data
  let riskCount : ℕ :=
    [existsAt ssnAt none d, existsAt ccAt none d, existsAt emailAt none d,
     existsAt credAt none d, existsAt destrAt none d,
     existsAt hackAt none d].count true
  min ((riskCount : ℚ) / 3) 1

/-! ### `basicEvaluate` -/

/-- `clamp01` from `orchestrator.ts` / the final clamping step of
`basic-evaluator.ts`: `Math.max(0, Math.min(1, n))`. -/
def clamp01 (n : ℚ) : ℚ := max 0 (min 1 n)

/-- The JavaScript truthiness test `context && context.trim().length >
0`: the context is a non-empty string containing at least one
non-whitespace character. -/
def hasCtx (context : String) : Bool :=
  context.data.any fun c => !isJsSpace c

structure EvaluationInput where
  query : String
  context : String
  answer : String
deriving Repr, DecidableEq

structure EvaluationScores where
  faithfulness : ℚ
  relevance : ℚ
  policy_risk : ℚ
  hallucination : ℚ
  overall : ℚ
deriving Repr, DecidableEq

/-- The faithfulness computation of `basicEvaluate` (steps 1 of the
source): context overlap, plus a `+0.2` boost (capped at 1) when the
answer contains the 20-character prefix of one of the first three
context sentences; `0.5` when there is no usable context. -/
def faithfulnessOf (context answer : String) : ℚ :=
  if hasCtx context then
    let base := calculateOverlap answer context
    let contextPhrases := (splitSentences context.data).take 3
    if contextPhrases.any
        (fun phrase => listIncludes ((lower phrase).take 20) (lower answer.data)) then
      min (base + 2/10) 1
    else base
  else 1/2

/-- The hallucination computation of `basicEvaluate`: `1 − faithfulness`
under usable context, else the fixed `0.3`. -/
def hallucinationOf (context : String) (faithfulness : ℚ) : ℚ :=
  if hasCtx context then 1 - faithfulness else 3/10

/-- Translation of `basicEvaluate` from `basic-evaluator.ts`, including
the early-return branch taken when the answer contains the first ten
characters of the query (that branch skips the final clamping). -/
def basicEvaluate (input : EvaluationInput) : EvaluationScores :=
  let query := input.query
  let context := input.context
  let answer := input.answer
  let faithfulness := faithfulnessOf context answer
  let relevance := calculateOverlap answer query
  if listIncludes ((lower query.data).take 10) (lower answer.data) then
    let boostedRelevance := min (relevance + 3/10) 1
    { faithfulness := faithfulness,
      relevance := boostedRelevance,
      policy_risk := detectPolicyRisk answer,
      hallucination := hallucinationOf context faithfulness,
      overall :=
        faithfulness * (3/10) + boostedRelevance * (3/10) +
          (1 - detectPolicyRisk answer) * (2/10) +
          (1 - hallucinationOf context faithfulness) * (2/10) }
  else
    let policy_risk := detectPolicyRisk answer
    let hallucination := hallucinationOf context faithfulness
    let overall :=
      faithfulness * (3/10) + relevance * (3/10) +
        (1 - policy_risk) * (2/10) + (1 - hallucination) * (2/10)
    { faithfulness := clamp01 faithfulness,
      relevance := clamp01 relevance,
      policy_risk := clamp01 policy_risk,
      hallucination := clamp01 hallucination,
      overall := clamp01 overall }

/-! ## Error taxonomy (`classifyError`, `determineFinalStatus`) -/

/-- The closed, coarse error-type enum. -/
inductive ErrorType where
  | RAG_ERROR | TOOL_ERROR | LLM_ERROR | EVALUATION_ERROR | REMEDIATION_ERROR
  | VALIDATION_ERROR | AUTH_ERROR | RATE_LIMIT | TIMEOUT | UNKNOWN
deriving Repr, DecidableEq

/-- The closed, fine-grained error-code enum. -/
inductive ErrorCode where
  | RAG_EMPTY_RESULT | RAG_PROVIDER_DOWN | RAG_TIMEOUT
  | TOOL_TIMEOUT | TOOL_BAD_RESPONSE | TOOL_UNAVAILABLE
  | LLM_RATE_LIMIT | LLM_CONTEXT_TOO_LARGE | LLM_PROVIDER_DOWN
  | EVAL_MODEL_FAILURE | POLICY_VIOLATION | REMEDIATION_FALLBACK_FAILED
  | UNKNOWN
deriving Repr, DecidableEq

structure ErrorClassification where
  type : ErrorType
  code : ErrorCode
  message : String
deriving Repr, DecidableEq

/-- A raw JavaScript error value as `classifyError` observes it:
`e?.message` and `e?.code` (either may be absent). -/
structure JsError where
  message : Option String
  code : Option String
deriving Repr, DecidableEq

/-- The optional hint flags (`context?.timeout` etc.); an absent
context object reads as all-false. -/
structure ClassifyContext where
  timeout : Bool := false
  rateLimit : Bool := false
  providerDown : Bool := false
  emptyResult : Bool := false
deriving Repr, DecidableEq

/-- Translation of `classifyError`.  The stage is a `String` because the
source `switch` has a `default` branch reachable at runtime for any
unrecognised stage value. -/
def classifyError (stage : String) (error : JsError) (ctx : ClassifyContext) :
    ErrorClassification :=
  let errMessage := error.message.getD "Unknown error"
  let errCode := error.code
  if stage = "rag" then
    if ctx.timeout then ⟨.TIMEOUT, .RAG_TIMEOUT, errMessage⟩
    else if ctx.providerDown then ⟨.RAG_ERROR, .RAG_PROVIDER_DOWN, errMessage⟩
    else if ctx.emptyResult then ⟨.RAG_ERROR, .RAG_EMPTY_RESULT, errMessage⟩
    else ⟨.RAG_ERROR, .RAG_PROVIDER_DOWN, errMessage⟩
  else if stage = "tool" then
    if errCode = some "TOOL_TIMEOUT" || ctx.timeout then
      ⟨.TIMEOUT, .TOOL_TIMEOUT, errMessage⟩
    else if ctx.providerDown then ⟨.TOOL_ERROR, .TOOL_UNAVAILABLE, errMessage⟩
    else ⟨.TOOL_ERROR, .TOOL_BAD_RESPONSE, errMessage⟩
  else if stage = "llm" then
    if ctx.rateLimit then ⟨.RATE_LIMIT, .LLM_RATE_LIMIT, errMessage⟩
    else if ctx.providerDown then ⟨.LLM_ERROR, .LLM_PROVIDER_DOWN, errMessage⟩
    else ⟨.LLM_ERROR, .LLM_CONTEXT_TOO_LARGE, errMessage⟩
  else if stage = "evaluation" then
    ⟨.EVALUATION_ERROR, .EVAL_MODEL_FAILURE, errMessage⟩
  else if stage = "remediation" then
    ⟨.REMEDIATION_ERROR, .REMEDIATION_FALLBACK_FAILED, errMessage⟩
  else ⟨.UNKNOWN, .UNKNOWN, errMessage⟩

/-- The canonical request status. -/
inductive RequestStatus where
  | OK | DEGRADED | ERROR
deriving Repr, DecidableEq

/-- One entry of the orchestrator's `stageErrors` list. -/
structure StageErr where
  stage : String
  error : Option ErrorClassification
deriving Repr, DecidableEq

/-- Translation of `determineFinalStatus` (sequential early returns of
the source become a chain of conditionals). -/
def determineFinalStatus (stageErrors : List StageErr)
    (remediationTriggered remediationSucceeded hasUsableResponse : Bool) :
    RequestStatus :=
  if !hasUsableResponse then .ERROR
  else
    let hasStageErrors := stageErrors.any fun e => e.error ≠ none
    if hasStageErrors && remediationSucceeded then .DEGRADED
    else if remediationTriggered && remediationSucceeded then .DEGRADED
    else if remediationTriggered && !remediationSucceeded && !hasUsableResponse then .ERROR
    else if hasStageErrors && hasUsableResponse then .DEGRADED
    else .OK

/-! ## Span-name taxonomy (`span-names.ts`) -/

inductive Stage where
  | request | rag | tool | llm | evaluation | remediation
deriving Repr, DecidableEq

/-- The `SPAN_NAMES` constant object. -/
structure SpanNames where
  REQUEST : String
  RAG : String
  TOOL : String
  LLM : String
  EVALUATION : String
  REMEDIATION : String
deriving Repr, DecidableEq

def SPAN_NAMES : SpanNames :=
  { REQUEST := "traceforge.request"
    RAG := "traceforge.rag"
    TOOL := "traceforge.tool"
    LLM := "traceforge.llm"
    EVALUATION := "traceforge.evaluation"
    REMEDIATION := "traceforge.remediation" }

/-- Translation of `getSpanName`. -/
def getSpanName (stage : Stage) : String :=
  match stage with
  | .request => SPAN_NAMES.REQUEST
  | .rag => SPAN_NAMES.RAG
  | .tool => SPAN_NAMES.TOOL
  | .llm => SPAN_NAMES.LLM
  | .evaluation => SPAN_NAMES.EVALUATION
  | .remediation => SPAN_NAMES.REMEDIATION

/-! ## Remediation policy (`remediate` in `orchestrator.ts`) -/

inductive ActionType where
  | SAFE_MODE | FALLBACK_TOOL | CLARIFICATION | RETRY_LLM
deriving Repr, DecidableEq

inductive FinalMode where
  | NORMAL | SAFE | DEGRADED
deriving Repr, DecidableEq

structure RemediationAction where
  type : ActionType
  reason : String
deriving Repr, DecidableEq

structure RemediationReport where
  triggered : Bool
  actions : List RemediationAction
  finalMode : FinalMode
deriving Repr, DecidableEq

/-- `EvalScores` as declared in the core public contract (`types.ts`):
four dimensions plus `overall`, optional reasons and the
`formatCompliance` extra (`0 | 1`). -/
structure EvalScores where
  faithfulness : ℚ
  relevance : ℚ
  policyRisk : ℚ
  hallucination : ℚ
  overall : ℚ
  reasons : Option (List String)
  formatCompliance : Option ℕ
deriving Repr, DecidableEq

/-- Translation of `remediate(scores, toolFailed)` from
`orchestrator.ts`: the first matching rule appends its single action and
fixes the final mode; `triggered` is `actions.length > 0`. -/
def remediate (scores : EvalScores) (toolFailed : Bool) : RemediationReport :=
  let (actions, finalMode) :=
    if scores.policyRisk > 7/10 then
      ([RemediationAction.mk .SAFE_MODE "Policy risk threshold exceeded"], FinalMode.SAFE)
    else if toolFailed then
      ([RemediationAction.mk .FALLBACK_TOOL "Tool execution failed"], FinalMode.DEGRADED)
    else if scores.faithfulness < 8/10 then
      ([RemediationAction.mk .CLARIFICATION "Low faithfulness score"], FinalMode.DEGRADED)
    else ([], FinalMode.NORMAL)
  { triggered := actions.length > 0
    actions := actions
    finalMode := finalMode }

/-! ## The stage-span primitive (`start-stage-span.ts`)

`startStageSpan` / `startStageSpanSync` are modelled as functions from
the callback's outcome (a value or a thrown error) and the span events
the callback itself emitted, to the primitive's own outcome together
with the full event trace of the wrapped unit of work.  The `async`
wrapper of the first variant has no observable effect in this
single-request model, so both variants are embedded with the same shape,
one definition per source function. -/

inductive SpanEvent where
  /-- `tracer.startActiveSpan(spanName, ...)` -/
  | startSpan (name : String)
  /-- a `setMandatoryAttrs` / `setStageAttrs` call -/
  | attrs
  /-- `markSpanError`: `recordException` + `setStatus(ERROR)` -/
  | exceptionRecorded
  /-- `span.end()` -/
  | endSpan
deriving Repr, DecidableEq

/-- Translation of `startStageSpan`: open the span, set mandatory and
stage attributes, run the callback; on normal return set the final
attributes, end the span and return the value; on a thrown error mark
the span, set the error attributes, end the span and re-throw. -/
def startStageSpanRun {α : Type} (stage : Stage)
    (cbOutcome : Except JsError α) (cbEvents : List SpanEvent) :
    Except JsError α × List SpanEvent :=
  let spanName := getSpanName stage
  match cbOutcome with
  | .ok result =>
    (.ok result,
      [.startSpan spanName, .attrs, .attrs] ++ cbEvents ++ [.attrs, .endSpan])
  | .error err =>
    (.error err,
      [.startSpan spanName, .attrs, .attrs] ++ cbEvents ++
        [.exceptionRecorded, .attrs, .endSpan])

/-- Translation of `startStageSpanSync` (same control flow as
`startStageSpan`, without the `async` wrapper). -/
def startStageSpanSyncRun {α : Type} (stage : Stage)
    (cbOutcome : Except JsError α) (cbEvents : List SpanEvent) :
    Except JsError α × List SpanEvent :=
  let spanName := getSpanName stage
  match cbOutcome with
  | .ok result =>
    (.ok result,
      [.startSpan spanName, .attrs, .attrs] ++ cbEvents ++ [.attrs, .endSpan])
  | .error err =>
    (.error err,
      [.startSpan spanName, .attrs, .attrs] ++ cbEvents ++
        [.exceptionRecorded, .attrs, .endSpan])

/-! ## The pipeline orchestrator (`doOrchestrate`, current revision)

The external collaborators are passed in as explicit outcomes:
`ragRetrieve` is the result of `qdrantRagProvider.retrieve`,
`llmGenerate` maps the prompt to the result of
`geminiProvider.generate`, and `evalFailure` says whether the body of
the evaluation span throws (and with what error) before producing
scores.  Telemetry calls (span attributes, metrics) have no effect on
the returned data and are elided. -/

structure ChaosFlags where
  breakTool : Bool := false
  badRag : Bool := false
  policyRisk : Bool := false
  tokenSpike : Bool := false
deriving Repr, DecidableEq

structure AskRequest where
  requestId : String
  tenantId : String
  /-- `req.input.text` -/
  inputText : String
  chaos : ChaosFlags := {}
deriving Repr, DecidableEq

structure RagResult where
  context : String
  docs : ℕ
deriving Repr, DecidableEq

structure ToolCallResult where
  toolResult : String
  toolName : String
deriving Repr, DecidableEq

structure LlmResult where
  text : String
  inputTokens : ℕ
  outputTokens : ℕ
  totalTokens : ℕ
  costUsd : ℚ
deriving Repr, DecidableEq

structure AskUsage where
  tokensIn : ℕ
  tokensOut : ℕ
  totalTokens : ℕ
  costUsd : ℚ
deriving Repr, DecidableEq

structure AskResponse where
  requestId : String
  tenantId : String
  /-- `answer.text` -/
  answerText : String
  usage : AskUsage
  eval : EvalScores
  remediation : RemediationReport
deriving Repr, DecidableEq

/-- The data a single `doOrchestrate` run produces: the response
returned to the caller plus the cross-stage state the orchestrator
accumulated (final status, stage errors, tool-failure flag). -/
structure OrchestrationRun where
  response : AskResponse
  finalStatus : RequestStatus
  stageErrors : List StageErr
  toolFailed : Bool
deriving Repr, DecidableEq

/-- Translation of `mockToolCall`: throws a `Tool timeout` error with
code `TOOL_TIMEOUT` when the `breakTool` chaos flag is set. -/
def mockToolCall (breakTool : Bool) : Except JsError ToolCallResult :=
  if breakTool then .error ⟨some "Tool timeout", some "TOOL_TIMEOUT"⟩
  else .ok ⟨"tool-ok", "weather.mock"⟩

/-- Model of `Number.prototype.toFixed(2)` on the score range (rounds to
two decimals, half away from zero on the non-negative values that occur
here). -/
def toFixed2 (q : ℚ) : String :=
  let n : ℤ := ⌊q * 100 + 1/2⌋
  let fp := (n % 100).toNat
  toString (n / 100) ++ "." ++
    (if fp < 10 then "0" ++ toString fp else toString fp)

/-- The prompt assembled before the LLM stage:
```User: ${req.input.text}\nContext: ${rag.context}``` -/
def promptOf (req : AskRequest) (ragContext : String) : String :=
  "User: " ++ req.inputText ++ "\nContext: " ++ ragContext

/-- The fallback scores returned when the evaluation body throws. -/
def fallbackScores (llmText : String) : EvalScores :=
  { faithfulness := 1/2
    relevance := 1/2
    policyRisk := 1/10
    hallucination := 3/10
    overall := 1/2
    reasons := some ["Evaluation engine failure"]
    formatCompliance := some (if llmText.length > 0 then 1 else 0) }

/-- The body of the evaluation span on its success path: run
`basicEvaluate` on (query, context, answer), force `policyRisk = 0.9`
under the `policyRisk` chaos flag, clamp every dimension, then generate
the reasons list (dropped when empty). -/
def computeScores (req : AskRequest) (ragContext llmText : String) : EvalScores :=
  let evalScores := basicEvaluate
    { query := req.inputText, context := ragContext, answer := llmText }
  let policyRisk := if req.chaos.policyRisk then 9/10 else evalScores.policy_risk
  let s : EvalScores :=
    { faithfulness := clamp01 evalScores.faithfulness
      relevance := clamp01 evalScores.relevance
      policyRisk := clamp01 policyRisk
      hallucination := clamp01 evalScores.hallucination
      overall := clamp01 evalScores.overall
      reasons := none
      formatCompliance := some (if llmText.length > 0 then 1 else 0) }
  let reasons :=
    (if s.faithfulness < 7/10 then ["Low faithfulness detected"] else []) ++
    (if s.relevance < 1/2 then ["Low relevance to context"] else []) ++
    (if s.policyRisk > 7/10 then ["High policy risk detected"] else []) ++
    (if s.hallucination > 1/2 then ["Potential hallucination"] else [])
  { s with reasons := if reasons = [] then none else some reasons }

/-- The fixed clarification message substituted for the answer when the
inline remediation fires. -/
def clarificationText : String :=
  "I may not have enough reliable information. Could you clarify or provide more details?"

/-- The inline remediation span body (Phase 1.1.4): trigger a single
CLARIFICATION action exactly when `overall < 0.75`; returns the report
together with the clarification message to substitute for the answer. -/
def inlineRemediation (scores : EvalScores) : RemediationReport × Option String :=
  let overall := scores.overall
  if overall ≥ 3/4 then
    ({ triggered := false, actions := [], finalMode := .NORMAL }, none)
  else
    ({ triggered := true
       actions := [⟨.CLARIFICATION,
         "Low overall quality score (" ++ toFixed2 overall ++ " < 0.75)"⟩]
       finalMode := .DEGRADED },
     some clarificationText)

/-- Translation of the current revision of `doOrchestrate`:

* RAG failures are caught inside the RAG span: the error is classified
  with the `providerDown` hint, recorded in `stageErrors`, and the stage
  yields the empty result `{context: '', docs: 0}`;
* a tool failure is caught by the orchestrator, sets `toolFailed`, and
  records the classified error (with the `timeout` hint when the raw
  error's code is `TOOL_TIMEOUT`);
* an LLM failure is classified, attached to the span, and re-thrown —
  it is the only failure that escapes `doOrchestrate`;
* an evaluation failure is caught inside the evaluation span and
  replaced by `fallbackScores`;
* the inline remediation never throws;
* `hasUsableResponse` is the constant `true` of the source. -/
def doOrchestrate (req : AskRequest)
    (ragRetrieve : Except JsError RagResult)
    (llmGenerate : String → Except JsError LlmResult)
    (evalFailure : Option JsError) :
    Except JsError OrchestrationRun :=
  let (ragUsed, ragErrs) :=
    match ragRetrieve with
    | .ok result => (result, [StageErr.mk "rag" none])
    | .error err =>
      ({ context := "", docs := 0 },
        [StageErr.mk "rag" (some (classifyError "rag" err { providerDown := true }))])
  let (toolFailed, toolErrs) :=
    match mockToolCall req.chaos.breakTool with
    | .ok _ => (false, [])
    | .error e =>
      (true,
        [StageErr.mk "tool"
          (some (classifyError "tool" e { timeout := e.code = some "TOOL_TIMEOUT" }))])
  let stageErrors := ragErrs ++ toolErrs
  let prompt := promptOf req ragUsed.context
  match llmGenerate prompt with
  | .error err => .error err
  | .ok llm =>
    let scores :=
      match evalFailure with
      | none => computeScores req ragUsed.context llm.text
      | some _ => fallbackScores llm.text
    let (remediationApplied, clarificationMessage) := inlineRemediation scores
    let hasUsableResponse := true
    let remediationSucceeded :=
      remediationApplied.triggered && remediationApplied.finalMode ≠ FinalMode.NORMAL
    let finalStatus :=
      if remediationApplied.triggered then RequestStatus.DEGRADED
      else determineFinalStatus stageErrors remediationApplied.triggered
        remediationSucceeded hasUsableResponse
    let answer := clarificationMessage.getD llm.text
    .ok
      { response :=
          { requestId := req.requestId
            tenantId := req.tenantId
            answerText := answer
            usage :=
              { tokensIn := llm.inputTokens
                tokensOut := llm.outputTokens
                totalTokens := llm.totalTokens
                costUsd := llm.costUsd }
            eval := scores
            remediation := remediationApplied }
        finalStatus := finalStatus
        stageErrors := stageErrors
        toolFailed := toolFailed }

/-- The retrieval result the pipeline actually proceeds with: the
collaborator's result on success, and the caught-and-replaced empty
result `{context: '', docs: 0}` on a retrieval failure. -/
def ragUsedOf : Except JsError RagResult → RagResult
  | .ok r => r
  | .error _ => { context := "", docs := 0 }

/-! ## Helper lemmas: bounds of the evaluator components -/

theorem clamp01_nonneg (n : ℚ) : 0 ≤ clamp01 n := le_max_left 0 _

theorem clamp01_le_one (n : ℚ) : clamp01 n ≤ 1 := by
  unfold clamp01
  exact max_le (by norm_num) (min_le_left 1 n)

theorem clamp01_eq_self {n : ℚ} (h0 : 0 ≤ n) (h1 : n ≤ 1) : clamp01 n = n := by
  unfold clamp01
  rw [min_eq_right h1, max_eq_right h0]

theorem calculateOverlap_nonneg (t1 t2 : String) : 0 ≤ calculateOverlap t1 t2 := by
  unfold calculateOverlap
  split
  · exact le_refl 0
  · dsimp only
    split
    · exact le_refl 0
    · positivity

theorem calculateOverlap_le_one (t1 t2 : String) : calculateOverlap t1 t2 ≤ 1 := by
  unfold calculateOverlap
  split
  · norm_num
  · dsimp only
    split
    · norm_num
    · rename_i hw
      rw [div_le_one]
      · exact_mod_cast Finset.card_le_card
          (Finset.inter_subset_union (s := tokenSet (lower t1.data)) (t := tokenSet (lower t2.data)))
      · have h1 : tokenSet (lower t1.data) ⊆ tokenSet (lower t1.data) ∪ tokenSet (lower t2.data) :=
          Finset.subset_union_left
        have h2 : ¬ ((tokenSet (lower t1.data)).card = 0 ∨ (tokenSet (lower t2.data)).card = 0) := by
          simpa using hw
        push_neg at h2
        have : 0 < (tokenSet (lower t1.data)).card := Nat.pos_of_ne_zero h2.1
        exact_mod_cast lt_of_lt_of_le this (Finset.card_le_card h1)

theorem detectPolicyRisk_nonneg (a : String) : 0 ≤ detectPolicyRisk a := by
  unfold detectPolicyRisk
  exact le_min (by positivity) (by norm_num)

theorem detectPolicyRisk_le_one (a : String) : detectPolicyRisk a ≤ 1 :=
  min_le_right _ 1

theorem faithfulnessOf_nonneg (c a : String) : 0 ≤ faithfulnessOf c a := by
  unfold faithfulnessOf
  split
  · dsimp only
    split
    · exact le_min (by have := calculateOverlap_nonneg a c; linarith) (by norm_num)
    · exact calculateOverlap_nonneg a c
  · norm_num

theorem faithfulnessOf_le_one (c a : String) : faithfulnessOf c a ≤ 1 := by
  unfold faithfulnessOf
  split
  · dsimp only
    split
    · exact min_le_right _ 1
    · exact calculateOverlap_le_one a c
  · norm_num

theorem hallucinationOf_nonneg (c : String) {f : ℚ} (hf : f ≤ 1) :
    0 ≤ hallucinationOf c f := by
  unfold hallucinationOf
  split
  · linarith
  · norm_num

theorem hallucinationOf_le_one (c : String) {f : ℚ} (hf : 0 ≤ f) :
    hallucinationOf c f ≤ 1 := by
  unfold hallucinationOf
  split
  · linarith
  · norm_num

/-- The weighted combination of `basicEvaluate` stays in `[0,1]` when
its four components do. -/
theorem combo_mem_Icc {f r pr h : ℚ}
    (hf0 : 0 ≤ f) (hf1 : f ≤ 1) (hr0 : 0 ≤ r) (hr1 : r ≤ 1)
    (hp0 : 0 ≤ pr) (hp1 : pr ≤ 1) (hh0 : 0 ≤ h) (hh1 : h ≤ 1) :
    0 ≤ f * (3/10) + r * (3/10) + (1 - pr) * (2/10) + (1 - h) * (2/10) ∧
      f * (3/10) + r * (3/10) + (1 - pr) * (2/10) + (1 - h) * (2/10) ≤ 1 := by
  constructor <;> nlinarith

/-- All five fields of `basicEvaluate` lie in `[0,1]`, on both the
early-return branch and the clamped main branch. -/
theorem basicEvaluate_mem_Icc (input : EvaluationInput) :
    (0 ≤ (basicEvaluate input).faithfulness ∧ (basicEvaluate input).faithfulness ≤ 1) ∧
    (0 ≤ (basicEvaluate input).relevance ∧ (basicEvaluate input).relevance ≤ 1) ∧
    (0 ≤ (basicEvaluate input).policy_risk ∧ (basicEvaluate input).policy_risk ≤ 1) ∧
    (0 ≤ (basicEvaluate input).hallucination ∧ (basicEvaluate input).hallucination ≤ 1) ∧
    (0 ≤ (basicEvaluate input).overall ∧ (basicEvaluate input).overall ≤ 1) := by
  have hf0 := faithfulnessOf_nonneg input.context input.answer
  have hf1 := faithfulnessOf_le_one input.context input.answer
  have hr0 := calculateOverlap_nonneg input.answer input.query
  have hr1 := calculateOverlap_le_one input.answer input.query
  have hp0 := detectPolicyRisk_nonneg input.answer
  have hp1 := detectPolicyRisk_le_one input.answer
  have hh0 := hallucinationOf_nonneg input.context hf1
  have hh1 := hallucinationOf_le_one input.context hf0
  unfold basicEvaluate
  dsimp only
  split
  · dsimp only
    have hb0 : 0 ≤ min (calculateOverlap input.answer input.query + 3/10) 1 :=
      le_min (by linarith) (by norm_num)
    have hb1 : min (calculateOverlap input.answer input.query + 3/10) 1 ≤ 1 :=
      min_le_right _ 1
    refine ⟨⟨hf0, hf1⟩, ⟨hb0, hb1⟩, ⟨hp0, hp1⟩, ⟨hh0, hh1⟩, ?_⟩
    exact combo_mem_Icc hf0 hf1 hb0 hb1 hp0 hp1 hh0 hh1
  · dsimp only
    exact ⟨⟨clamp01_nonneg _, clamp01_le_one _⟩, ⟨clamp01_nonneg _, clamp01_le_one _⟩,
      ⟨clamp01_nonneg _, clamp01_le_one _⟩, ⟨clamp01_nonneg _, clamp01_le_one _⟩,
      ⟨clamp01_nonneg _, clamp01_le_one _⟩⟩

/-- Under the `policyRisk` chaos flag, the evaluation-span success path
forces `policyRisk = 0.9` and leaves the four other dimensions exactly
as `basicEvaluate` computed them (the clamps are identities on values
already in `[0,1]`); in particular `overall` is not recomputed from the
overridden policy risk. -/
theorem computeScores_chaos_policyRisk (req : AskRequest) (ctx text : String)
    (h : req.chaos.policyRisk = true) :
    (computeScores req ctx text).policyRisk = 9/10 ∧
    (computeScores req ctx text).faithfulness =
      (basicEvaluate ⟨req.inputText, ctx, text⟩).faithfulness ∧
    (computeScores req ctx text).relevance =
      (basicEvaluate ⟨req.inputText, ctx, text⟩).relevance ∧
    (computeScores req ctx text).hallucination =
      (basicEvaluate ⟨req.inputText, ctx, text⟩).hallucination ∧
    (computeScores req ctx text).overall =
      (basicEvaluate ⟨req.inputText, ctx, text⟩).overall := by
  obtain ⟨⟨f0, f1⟩, ⟨r0, r1⟩, ⟨p0, p1⟩, ⟨g0, g1⟩, ⟨o0, o1⟩⟩ :=
    basicEvaluate_mem_Icc ⟨req.inputText, ctx, text⟩
  unfold computeScores
  dsimp only
  rw [h]
  simp only [if_true]
  refine ⟨?_, ?_, ?_, ?_, ?_⟩
  · exact clamp01_eq_self (by norm_num) (by norm_num)
  · exact clamp01_eq_self f0 f1
  · exact clamp01_eq_self r0 r1
  · exact clamp01_eq_self g0 g1
  · exact clamp01_eq_self o0 o1

/-! ## Claim theorems -/

/-- C1: for every `EvalScores` input with `policyRisk > 0.7` and every
value of `toolFailed`, `remediate` produces exactly one action, of type
`SAFE_MODE`, with `finalMode = SAFE` — the policy-risk rule has highest
priority, over tool failure and over a low faithfulness/overall score. -/
theorem remediate_policy_risk_priority (scores : EvalScores) (toolFailed : Bool)
    (h : scores.policyRisk > 7/10) :
    remediate scores toolFailed =
      { triggered := true
        actions := [⟨ActionType.SAFE_MODE, "Policy risk threshold exceeded"⟩]
        finalMode := .SAFE } := by
  simp only [remediate, if_pos h]
  rfl

theorem remediate_policy_risk_priority_witness :
    ((9:ℚ)/10 > 7/10) ∧
      remediate ⟨1/2, 1/2, 9/10, 3/10, 1/2, none, none⟩ true =
        { triggered := true
          actions := [⟨ActionType.SAFE_MODE, "Policy risk threshold exceeded"⟩]
          finalMode := .SAFE } :=
  ⟨by norm_num,
   remediate_policy_risk_priority ⟨1/2, 1/2, 9/10, 3/10, 1/2, none, none⟩ true (by norm_num)⟩

/-- C2: whatever the stage outcomes and the remediation flags, an absent
usable response makes `determineFinalStatus` return `ERROR`. -/
theorem determineFinalStatus_no_usable_response (es : List StageErr) (rt rs : Bool) :
    determineFinalStatus es rt rs false = .ERROR := by
  simp [determineFinalStatus]

/-- C3: with at least one stage outcome carrying a non-null error and a
usable response present, `determineFinalStatus` returns `DEGRADED` for
every combination of the remediation flags — never `OK`, never
`ERROR`. -/
theorem determineFinalStatus_stage_error_degraded (es : List StageErr) (rt rs : Bool)
    (h : ∃ e ∈ es, e.error ≠ none) :
    determineFinalStatus es rt rs true = .DEGRADED := by
  have hse : (es.any fun e => e.error ≠ none) = true := by
    rw [List.any_eq_true]
    obtain ⟨e, he, hne⟩ := h
    exact ⟨e, he, by simpa using hne⟩
  unfold determineFinalStatus
  rw [hse]
  cases rs <;> simp

theorem determineFinalStatus_stage_error_degraded_witness :
    determineFinalStatus
        [⟨"rag", some ⟨.RAG_ERROR, .RAG_PROVIDER_DOWN, "provider down"⟩⟩]
        false false true = .DEGRADED :=
  determineFinalStatus_stage_error_degraded _ false false
    ⟨⟨"rag", some ⟨.RAG_ERROR, .RAG_PROVIDER_DOWN, "provider down"⟩⟩,
      by simp, by simp⟩

/-- C4: for every input, the `overall` field returned by `basicEvaluate`
equals the clamped weighted combination
`0.3·faithfulness + 0.3·relevance + 0.2·(1−policy_risk) +
0.2·(1−hallucination)` of the values returned in the same record,
including on the early-return (relevance-boost) path. -/
theorem basicEvaluate_overall_formula (input : EvaluationInput) :
    (basicEvaluate input).overall =
      clamp01 ((basicEvaluate input).faithfulness * (3/10) +
        (basicEvaluate input).relevance * (3/10) +
        (1 - (basicEvaluate input).policy_risk) * (2/10) +
        (1 - (basicEvaluate input).hallucination) * (2/10)) := by
  have hf0 := faithfulnessOf_nonneg input.context input.answer
  have hf1 := faithfulnessOf_le_one input.context input.answer
  have hr0 := calculateOverlap_nonneg input.answer input.query
  have hp0 := detectPolicyRisk_nonneg input.answer
  have hp1 := detectPolicyRisk_le_one input.answer
  have hh0 := hallucinationOf_nonneg input.context hf1
  have hh1 := hallucinationOf_le_one input.context hf0
  unfold basicEvaluate
  dsimp only
  split
  · dsimp only
    have hb0 : 0 ≤ min (calculateOverlap input.answer input.query + 3/10) 1 :=
      le_min (by linarith) (by norm_num)
    have hb1 : min (calculateOverlap input.answer input.query + 3/10) 1 ≤ 1 :=
      min_le_right _ 1
    obtain ⟨h0, h1⟩ := combo_mem_Icc hf0 hf1 hb0 hb1 hp0 hp1 hh0 hh1
    exact (clamp01_eq_self h0 h1).symm
  · dsimp only
    rw [clamp01_eq_self hf0 hf1,
      clamp01_eq_self hr0 (calculateOverlap_le_one input.answer input.query),
      clamp01_eq_self hp0 hp1, clamp01_eq_self hh0 hh1]

/-- C5: for every input — empty strings and boost branches included —
all five values returned by `basicEvaluate` lie in `[0,1]`; on the
early-return branch this holds even though that branch skips the final
clamping step. -/
theorem basicEvaluate_clamping (input : EvaluationInput) :
    (0 ≤ (basicEvaluate input).faithfulness ∧ (basicEvaluate input).faithfulness ≤ 1) ∧
    (0 ≤ (basicEvaluate input).relevance ∧ (basicEvaluate input).relevance ≤ 1) ∧
    (0 ≤ (basicEvaluate input).policy_risk ∧ (basicEvaluate input).policy_risk ≤ 1) ∧
    (0 ≤ (basicEvaluate input).hallucination ∧ (basicEvaluate input).hallucination ≤ 1) ∧
    (0 ≤ (basicEvaluate input).overall ∧ (basicEvaluate input).overall ≤ 1) :=
  basicEvaluate_mem_Icc input

/-- C9 (counterexample): the span name for the retrieval stage is
`traceforge.rag`, which is none of the six `core.*` names the claim
lists. -/
theorem getSpanName_not_core_namespace :
    getSpanName Stage.rag = "traceforge.rag" ∧
      "traceforge.rag" ∉ (["core.request", "core.retrieval", "core.tool",
        "core.generation", "core.evaluation", "core.remediation"] : List String) :=
  ⟨rfl, by decide⟩

/-- C9 (amended): for every stage, the emitted span name is exactly one
of the six fixed strings `traceforge.request`, `traceforge.rag`,
`traceforge.tool`, `traceforge.llm`, `traceforge.evaluation`,
`traceforge.remediation`, matching the stage being executed. -/
theorem getSpanName_traceforge_namespace :
    getSpanName .request = "traceforge.request" ∧
    getSpanName .rag = "traceforge.rag" ∧
    getSpanName .tool = "traceforge.tool" ∧
    getSpanName .llm = "traceforge.llm" ∧
    getSpanName .evaluation = "traceforge.evaluation" ∧
    getSpanName .remediation = "traceforge.remediation" ∧
    ∀ s : Stage, getSpanName s ∈
      (["traceforge.request", "traceforge.rag", "traceforge.tool",
        "traceforge.llm", "traceforge.evaluation", "traceforge.remediation"] : List String) := by
  refine ⟨rfl, rfl, rfl, rfl, rfl, rfl, ?_⟩
  intro s
  cases s <;> simp [getSpanName, SPAN_NAMES]

/-- C7: the classifier contract.  `classifyError` is a total Lean
function, hence total and deterministic by construction; moreover its
message is always the raw error's message (or `"Unknown error"` when
absent), a tool failure with code `TOOL_TIMEOUT` or a timeout hint maps
to `(TIMEOUT, TOOL_TIMEOUT)`, a generation failure with neither a
rate-limit nor a provider-down hint maps to
`(LLM_ERROR, LLM_CONTEXT_TOO_LARGE)`, an evaluation failure always maps
to `(EVALUATION_ERROR, EVAL_MODEL_FAILURE)`, and an unrecognised stage
maps to `(UNKNOWN, UNKNOWN)`. -/
theorem classifyError_contract (stage : String) (e : JsError) (ctx : ClassifyContext) :
    ((classifyError stage e ctx).message = e.message.getD "Unknown error") ∧
    (e.code = some "TOOL_TIMEOUT" ∨ ctx.timeout = true →
      (classifyError "tool" e ctx).type = .TIMEOUT ∧
      (classifyError "tool" e ctx).code = .TOOL_TIMEOUT) ∧
    (ctx.rateLimit = false → ctx.providerDown = false →
      (classifyError "llm" e ctx).type = .LLM_ERROR ∧
      (classifyError "llm" e ctx).code = .LLM_CONTEXT_TOO_LARGE) ∧
    ((classifyError "evaluation" e ctx).type = .EVALUATION_ERROR ∧
      (classifyError "evaluation" e ctx).code = .EVAL_MODEL_FAILURE) ∧
    (stage ∉ (["rag", "tool", "llm", "evaluation", "remediation"] : List String) →
      (classifyError stage e ctx).type = .UNKNOWN ∧
      (classifyError stage e ctx).code = .UNKNOWN) := by
  refine ⟨?_, ?_, ?_, ?_, ?_⟩
  · unfold classifyError
    dsimp only
    split_ifs <;> rfl
  · intro h
    have hcond : (decide (e.code = some "TOOL_TIMEOUT") || ctx.timeout) = true := by
      rcases h with h | h
      · simp [h]
      · simp [h]
    unfold classifyError
    simp only [hcond]
    simp
  · intro h1 h2
    unfold classifyError
    simp [h1, h2]
  · constructor <;> rfl
  · intro h
    simp only [List.mem_cons, List.mem_singleton, not_or] at h
    obtain ⟨n1, n2, n3, n4, n5, _⟩ := h
    unfold classifyError
    simp [n1, n2, n3, n4, n5]

theorem classifyError_contract_witness :
    ((JsError.mk (some "boom") (some "TOOL_TIMEOUT")).code = some "TOOL_TIMEOUT" ∨
      (ClassifyContext.mk false false false false).timeout = true) ∧
    ("mystery" : String) ∉ (["rag", "tool", "llm", "evaluation", "remediation"] : List String) ∧
    (classifyError "mystery" ⟨some "boom", some "TOOL_TIMEOUT"⟩
        ⟨false, false, false, false⟩).message = "boom" ∧
    (classifyError "tool" ⟨some "boom", some "TOOL_TIMEOUT"⟩
        ⟨false, false, false, false⟩).type = .TIMEOUT ∧
    (classifyError "mystery" ⟨some "boom", some "TOOL_TIMEOUT"⟩
        ⟨false, false, false, false⟩).code = .UNKNOWN :=
  ⟨Or.inl rfl, by decide,
   (classifyError_contract "mystery" ⟨some "boom", some "TOOL_TIMEOUT"⟩
      ⟨false, false, false, false⟩).1,
   ((classifyError_contract "mystery" ⟨some "boom", some "TOOL_TIMEOUT"⟩
      ⟨false, false, false, false⟩).2.1 (Or.inl rfl)).1,
   ((classifyError_contract "mystery" ⟨some "boom", some "TOOL_TIMEOUT"⟩
      ⟨false, false, false, false⟩).2.2.2.2 (by decide)).2⟩

/-- C8: the stage-span primitive closes the span exactly once on every
exit path, for both `startStageSpan` and `startStageSpanSync`: provided
the work callback does not itself close the span, the produced event
trace contains exactly one `span.end`, and the primitive's outcome is
the callback's outcome — in particular a thrown callback error is
re-thrown to the caller, after the span has been closed. -/
theorem startStageSpan_closes_exactly_once (α : Type) (stage : Stage)
    (cbOutcome : Except JsError α) (cbEvents : List SpanEvent)
    (h : cbEvents.count SpanEvent.endSpan = 0) :
    ((startStageSpanRun stage cbOutcome cbEvents).1 = cbOutcome ∧
      (startStageSpanRun stage cbOutcome cbEvents).2.count SpanEvent.endSpan = 1) ∧
    ((startStageSpanSyncRun stage cbOutcome cbEvents).1 = cbOutcome ∧
      (startStageSpanSyncRun stage cbOutcome cbEvents).2.count SpanEvent.endSpan = 1) := by
  cases cbOutcome <;>
    simp [startStageSpanRun, startStageSpanSyncRun, List.count_append, h,
      List.count_cons, List.count_nil, SpanEvent.startSpan.injEq]

theorem startStageSpan_closes_exactly_once_witness :
    (([] : List SpanEvent).count SpanEvent.endSpan = 0) ∧
    ((startStageSpanRun Stage.llm (.error (JsError.mk (some "rate limit") none)) []).1 =
      (.error (JsError.mk (some "rate limit") none) : Except JsError ℕ)) ∧
    ((startStageSpanRun Stage.llm
      (.error (JsError.mk (some "rate limit") none) : Except JsError ℕ) []).2.count
        SpanEvent.endSpan = 1) :=
  ⟨rfl,
   ((startStageSpan_closes_exactly_once ℕ Stage.llm
      (.error (JsError.mk (some "rate limit") none)) [] rfl).1).1,
   ((startStageSpan_closes_exactly_once ℕ Stage.llm
      (.error (JsError.mk (some "rate limit") none)) [] rfl).1).2⟩

/-- C6: the orchestrator's per-request run throws to its caller exactly
when the generation stage fails: (a) a generation failure is re-thrown
unchanged and no `AskResponse` is produced; (b) when generation
succeeds the run always produces a response, whatever the retrieval,
tool and evaluation outcomes; (c) a retrieval failure is replaced by
the empty-context result `(context "", docs 0)` and the rest of the
pipeline behaves exactly as if retrieval had returned that result;
(d) a tool failure only sets `toolFailed` and the pipeline continues;
(e) an evaluation failure is caught and replaced by the fallback
scores. -/
theorem doOrchestrate_failure_containment (req : AskRequest)
    (ragR : Except JsError RagResult) (llmGen : String → Except JsError LlmResult)
    (evalFail : Option JsError) :
    (∀ e, llmGen (promptOf req (ragUsedOf ragR).context) = .error e →
      doOrchestrate req ragR llmGen evalFail = .error e) ∧
    (∀ res, llmGen (promptOf req (ragUsedOf ragR).context) = .ok res →
      ∃ run, doOrchestrate req ragR llmGen evalFail = .ok run) ∧
    (∀ e, ragR = .error e →
      (doOrchestrate req ragR llmGen evalFail).map (fun run => run.response) =
        (doOrchestrate req (.ok ⟨"", 0⟩) llmGen evalFail).map (fun run => run.response)) ∧
    (req.chaos.breakTool = true →
      (doOrchestrate req ragR llmGen evalFail).map (fun run => run.toolFailed) =
        (llmGen (promptOf req (ragUsedOf ragR).context)).map (fun _ => true)) ∧
    (∀ e res, evalFail = some e →
      llmGen (promptOf req (ragUsedOf ragR).context) = .ok res →
      (doOrchestrate req ragR llmGen evalFail).map (fun run => run.response.eval) =
        .ok (fallbackScores res.text)) := by
  refine ⟨?_, ?_, ?_, ?_, ?_⟩
  · intro e he
    cases ragR with
    | ok r =>
      dsimp only [ragUsedOf] at he
      unfold doOrchestrate
      dsimp only
      rw [he]
    | error e0 =>
      dsimp only [ragUsedOf] at he
      unfold doOrchestrate
      dsimp only
      rw [he]
  · intro res he
    cases ragR with
    | ok r =>
      dsimp only [ragUsedOf] at he
      unfold doOrchestrate
      dsimp only
      rw [he]
      exact ⟨_, rfl⟩
    | error e0 =>
      dsimp only [ragUsedOf] at he
      unfold doOrchestrate
      dsimp only
      rw [he]
      exact ⟨_, rfl⟩
  · rintro e rfl
    unfold doOrchestrate
    dsimp only
    cases hl : llmGen (promptOf req "") with
    | error e2 => rfl
    | ok llm => rfl
  · intro hb
    cases ragR with
    | ok r =>
      unfold doOrchestrate
      dsimp only [ragUsedOf]
      simp only [hb, mockToolCall]
      cases hl : llmGen (promptOf req r.context) with
      | error e2 => rfl
      | ok llm => rfl
    | error e0 =>
      unfold doOrchestrate
      dsimp only [ragUsedOf]
      simp only [hb, mockToolCall]
      cases hl : llmGen (promptOf req "") with
      | error e2 => rfl
      | ok llm => rfl
  · rintro e res rfl he
    cases ragR with
    | ok r =>
      dsimp only [ragUsedOf] at he
      unfold doOrchestrate
      dsimp only
      rw [he]
      rfl
    | error e0 =>
      dsimp only [ragUsedOf] at he
      unfold doOrchestrate
      dsimp only
      rw [he]
      rfl

theorem doOrchestrate_failure_containment_witness :
    (∃ run,
      doOrchestrate
        { requestId := "r1", tenantId := "t1", inputText := "hi",
          chaos := { breakTool := true } }
        (.error ⟨some "qdrant down", none⟩)
        (fun _ => .ok ⟨"an answer", 1, 2, 3, 0⟩)
        (some ⟨some "eval blew up", none⟩) = .ok run) ∧
    ((doOrchestrate
        { requestId := "r1", tenantId := "t1", inputText := "hi",
          chaos := { breakTool := true } }
        (.error ⟨some "qdrant down", none⟩)
        (fun _ => .ok ⟨"an answer", 1, 2, 3, 0⟩)
        (some ⟨some "eval blew up", none⟩)).map (fun run => run.response) =
      (doOrchestrate
        { requestId := "r1", tenantId := "t1", inputText := "hi",
          chaos := { breakTool := true } }
        (.ok ⟨"", 0⟩)
        (fun _ => .ok ⟨"an answer", 1, 2, 3, 0⟩)
        (some ⟨some "eval blew up", none⟩)).map (fun run => run.response)) ∧
    ((doOrchestrate
        { requestId := "r1", tenantId := "t1", inputText := "hi",
          chaos := { breakTool := true } }
        (.error ⟨some "qdrant down", none⟩)
        (fun _ => .ok ⟨"an answer", 1, 2, 3, 0⟩)
        (some ⟨some "eval blew up", none⟩)).map (fun run => run.toolFailed) =
      ((fun (_ : String) => (.ok ⟨"an answer", 1, 2, 3, 0⟩ : Except JsError LlmResult))
        (promptOf
          { requestId := "r1", tenantId := "t1", inputText := "hi",
            chaos := { breakTool := true } }
          (ragUsedOf (.error ⟨some "qdrant down", none⟩)).context)).map (fun _ => true)) ∧
    ((doOrchestrate
        { requestId := "r1", tenantId := "t1", inputText := "hi",
          chaos := { breakTool := true } }
        (.error ⟨some "qdrant down", none⟩)
        (fun _ => .ok ⟨"an answer", 1, 2, 3, 0⟩)
        (some ⟨some "eval blew up", none⟩)).map (fun run => run.response.eval) =
      .ok (fallbackScores "an answer")) :=
  ⟨(doOrchestrate_failure_containment _ _ _ _).2.1 ⟨"an answer", 1, 2, 3, 0⟩ rfl,
   (doOrchestrate_failure_containment _ _ _ _).2.2.1 ⟨some "qdrant down", none⟩ rfl,
   (doOrchestrate_failure_containment _ _ _ _).2.2.2.1 rfl,
   (doOrchestrate_failure_containment _ _ _ _).2.2.2.2
     ⟨some "eval blew up", none⟩ ⟨"an answer", 1, 2, 3, 0⟩ rfl rfl⟩

/-- C10: for every request with the `chaos.policyRisk` flag set whose
evaluation stage succeeds (and whose generation stage returns `res`),
the returned response's `eval.policyRisk` is exactly `0.9`, while
`eval.faithfulness`, `eval.relevance`, `eval.hallucination` and
`eval.overall` are exactly the values `basicEvaluate` computed from the
query, the retrieved context and the answer — `overall` is not
recomputed from the overridden policy-risk value. -/
theorem doOrchestrate_chaos_policyRisk_override (req : AskRequest)
    (ragR : Except JsError RagResult) (llmGen : String → Except JsError LlmResult)
    (res : LlmResult)
    (hchaos : req.chaos.policyRisk = true)
    (hllm : llmGen (promptOf req (ragUsedOf ragR).context) = .ok res) :
    (doOrchestrate req ragR llmGen none).map
        (fun run => run.response.eval.policyRisk) = .ok (9/10) ∧
    (doOrchestrate req ragR llmGen none).map
        (fun run => run.response.eval.faithfulness) =
      .ok (basicEvaluate ⟨req.inputText, (ragUsedOf ragR).context, res.text⟩).faithfulness ∧
    (doOrchestrate req ragR llmGen none).map
        (fun run => run.response.eval.relevance) =
      .ok (basicEvaluate ⟨req.inputText, (ragUsedOf ragR).context, res.text⟩).relevance ∧
    (doOrchestrate req ragR llmGen none).map
        (fun run => run.response.eval.hallucination) =
      .ok (basicEvaluate ⟨req.inputText, (ragUsedOf ragR).context, res.text⟩).hallucination ∧
    (doOrchestrate req ragR llmGen none).map
        (fun run => run.response.eval.overall) =
      .ok (basicEvaluate ⟨req.inputText, (ragUsedOf ragR).context, res.text⟩).overall := by
  obtain ⟨hp, hf, hr, hg, ho⟩ :=
    computeScores_chaos_policyRisk req (ragUsedOf ragR).context res.text hchaos
  cases ragR with
  | ok r =>
    dsimp only [ragUsedOf] at hllm hp hf hr hg ho ⊢
    unfold doOrchestrate
    dsimp only
    rw [hllm]
    exact ⟨congrArg Except.ok hp, congrArg Except.ok hf, congrArg Except.ok hr,
      congrArg Except.ok hg, congrArg Except.ok ho⟩
  | error e0 =>
    dsimp only [ragUsedOf] at hllm hp hf hr hg ho ⊢
    unfold doOrchestrate
    dsimp only
    rw [hllm]
    exact ⟨congrArg Except.ok hp, congrArg Except.ok hf, congrArg Except.ok hr,
      congrArg Except.ok hg, congrArg Except.ok ho⟩

theorem doOrchestrate_chaos_policyRisk_override_witness :
    ({ requestId := "r1", tenantId := "t1", inputText := "hi",
        chaos := { policyRisk := true } } : AskRequest).chaos.policyRisk = true ∧
    (doOrchestrate
        { requestId := "r1", tenantId := "t1", inputText := "hi",
          chaos := { policyRisk := true } }
        (.ok ⟨"relevant context", 1⟩)
        (fun _ => .ok ⟨"an answer", 1, 1, 2, 0⟩)
        none).map (fun run => run.response.eval.policyRisk) = .ok (9/10) ∧
    (doOrchestrate
        { requestId := "r1", tenantId := "t1", inputText := "hi",
          chaos := { policyRisk := true } }
        (.ok ⟨"relevant context", 1⟩)
        (fun _ => .ok ⟨"an answer", 1, 1, 2, 0⟩)
        none).map (fun run => run.response.eval.overall) =
      .ok (basicEvaluate ⟨"hi", "relevant context", "an answer"⟩).overall :=
  ⟨rfl,
   (doOrchestrate_chaos_policyRisk_override
      { requestId := "r1", tenantId := "t1", inputText := "hi",
        chaos := { policyRisk := true } }
      (.ok ⟨"relevant context", 1⟩)
      (fun _ => .ok ⟨"an answer", 1, 1, 2, 0⟩)
      ⟨"an answer", 1, 1, 2, 0⟩ rfl rfl).1,
   (doOrchestrate_chaos_policyRisk_override
      { requestId := "r1", tenantId := "t1", inputText := "hi",
        chaos := { policyRisk := true } }
      (.ok ⟨"relevant context", 1⟩)
      (fun _ => .ok ⟨"an answer", 1, 1, 2, 0⟩)
      ⟨"an answer", 1, 1, 2, 0⟩ rfl rfl).2.2.2.2⟩

end Traceforge
